import Mathlib

/-!
Verification of the HPB salon-comparison tool (Streamlit + Gemini app).

The definitions below are a shallow embedding of the Python sources:
  * `src/modules/analyzer.py`  — `SalonScore`, `_parse_salon_response`,
    `compare_salons`, `_generate_comparison` (recommendation extraction)
  * `src/app.py`               — `run_analysis`, `extract_youtube_id`,
    star-string rendering in `generate_text_report`
  * `src/modules/chart.py`     — `create_age_bar_chart`,
    star cells of `create_score_summary_cards`
  * `src/modules/pdf_generator.py` — `_score_stars`
  * `src/app_sample.py`        — `calculate_detailed_category_score`,
    `extract_scores_from_analysis`, `stabilize_scores`

Python library behaviour that the sources rely on (json.loads, the re
module's search/findall/sub on the concrete patterns used, str.strip,
int()/float() coercions, truthiness, `or`) is modelled explicitly.
Machine floats are modelled by ℚ: none of the verified properties
depends on binary rounding of IEEE doubles.
-/

namespace HPB

/-! ### Python character/whitespace helpers -/

/-- Whitespace as recognised by Python's `str.strip()` and the regex class
`\s` on `str` (ASCII whitespace plus the ideographic space, the only
non-ASCII whitespace that can occur in the texts at hand). -/
def isPySpace (c : Char) : Bool :=
  c = ' ' || c = '\t' || c = '\n' || c = '\r' || c = '\x0b' || c = '\x0c' || c = '　'

/-- Literal prefix test (the pattern is examined first, so the test
reduces as soon as enough of the text is known). -/
def isPrefixOfChars : List Char → List Char → Bool
  | [], _ => true
  | _ :: _, [] => false
  | a :: as, b :: bs => a == b && isPrefixOfChars as bs

/-- `str.strip()`: drop whitespace from both ends. -/
def stripChars (cs : List Char) : List Char :=
  ((cs.dropWhile isPySpace).reverse.dropWhile isPySpace).reverse

/-- Drop trailing whitespace only. -/
def rstripChars (cs : List Char) : List Char :=
  (cs.reverse.dropWhile isPySpace).reverse

/-- Python `text.split('\n')`. -/
def splitNl : List Char → List (List Char)
  | [] => [[]]
  | c :: rest =>
    if c = '\n' then [] :: splitNl rest
    else
      match splitNl rest with
      | [] => [[c]]
      | l :: ls => (c :: l) :: ls

/-! ### JSON values (the result of Python's `json.loads`)

Python `None` (both the JSON literal `null` and the result of
`dict.get` on a missing key) is `Json.null`.  JSON integer tokens give
Python `int` (`Json.int`), tokens with a fraction or exponent give
Python `float`, modelled exactly by `Json.float : ℚ`. -/

inductive Json where
  | null
  | bool (b : Bool)
  | int (n : Int)
  | float (q : ℚ)
  | str (s : String)
  | arr (xs : List Json)
  | obj (fields : List (String × Json))

/-- `data.get(k)`: last binding wins (Python keeps the last duplicate key
when loading a JSON object); missing key gives `None`. -/
def jget (fields : List (String × Json)) (k : String) : Json :=
  match fields.reverse.find? (fun p => p.1 = k) with
  | some p => p.2
  | none => Json.null

/-- Python truthiness of a loaded JSON value. -/
def pyTruthy : Json → Bool
  | Json.null => false
  | Json.bool b => b
  | Json.int n => if n = 0 then false else true
  | Json.float q => if q = 0 then false else true
  | Json.str s => if s = "" then false else true
  | Json.arr xs => !xs.isEmpty
  | Json.obj fs => !fs.isEmpty

/-- Python `x or d`. -/
def pyOr (x d : Json) : Json :=
  if pyTruthy x then x else d

/-- Exceptions that the embedded code can raise. -/
inductive PyErr where
  | valueError
  | typeError
  | attributeError
  | keyError
deriving DecidableEq

/-- Truncation toward zero, as Python's `int(float)`. -/
def truncRat (q : ℚ) : Int :=
  if 0 ≤ q then ⌊q⌋ else -⌊-q⌋

/-- The whitespace CPython's number conversions (`int(str)`,
`float(str)`) strip around the literal: the Unicode
space-transformation set (tab, LF, VT, FF, CR, space, NEL, NBSP,
U+1680, U+2000–U+200A, U+2028, U+2029, U+202F, U+205F, U+3000). -/
def isPyNumSpace (c : Char) : Bool :=
  c = '\t' || c = '\n' || c = '\x0b' || c = '\x0c' || c = '\r' || c = ' ' ||
  c.toNat = 0x85 || c.toNat = 0xa0 || c.toNat = 0x1680 ||
  (0x2000 ≤ c.toNat && c.toNat ≤ 0x200a) || c.toNat = 0x2028 || c.toNat = 0x2029 ||
  c.toNat = 0x202f || c.toNat = 0x205f || c.toNat = 0x3000

def stripNumChars (cs : List Char) : List Char :=
  ((cs.dropWhile isPyNumSpace).reverse.dropWhile isPyNumSpace).reverse

/-- The zero codepoint of every Unicode `Nd` decimal-digit run
(Unicode 15 table, ASCII first); CPython's `int(str)`/`float(str)`
accept any of these digits. -/
def pyDigitZeros : List ℕ :=
  [48, 1632, 1776, 1984, 2406, 2534, 2662, 2790, 2918, 3046, 3174, 3302, 3430,
   3558, 3664, 3792, 3872, 4160, 4240, 6112, 6160, 6470, 6608, 6784, 6800, 6992,
   7088, 7232, 7248, 42528, 43216, 43264, 43472, 43504, 43600, 44016, 65296,
   66720, 68912, 69734, 69872, 69942, 70096, 70384, 70736, 70864, 71248, 71360,
   71472, 71904, 72016, 72784, 73040, 73120, 92768, 92864, 93008, 120782,
   120792, 120802, 120812, 120822, 123200, 123632, 125264, 130032]

/-- Decimal value of a Unicode `Nd` digit character, `none` otherwise. -/
def pyDigitVal (c : Char) : Option ℕ :=
  pyDigitZeros.findSome? fun z =>
    if z ≤ c.toNat && c.toNat ≤ z + 9 then some (c.toNat - z) else none

/-- Continue a digit group after at least one digit: further digits,
with single underscores allowed between digits (CPython's PEP-515
grouping).  Returns the accumulated value, the digit count, and the
unconsumed remainder (a trailing or doubled underscore is left
unconsumed, making the surrounding literal invalid). -/
def pyDigitGroupAux : ℕ → ℕ → List Char → ℕ × ℕ × List Char
  | acc, n, [] => (acc, n, [])
  | acc, n, '_' :: rest =>
    (match rest with
    | d :: rest2 =>
      (match pyDigitVal d with
      | some v => pyDigitGroupAux (acc * 10 + v) (n + 1) rest2
      | none => (acc, n, '_' :: rest))
    | [] => (acc, n, ['_']))
  | acc, n, c :: rest =>
    match pyDigitVal c with
    | some v => pyDigitGroupAux (acc * 10 + v) (n + 1) rest
    | none => (acc, n, c :: rest)

/-- Parse a non-empty underscore-grouped digit run (first character
must be a digit). -/
def pyDigitGroup : List Char → Option (ℕ × ℕ × List Char)
  | [] => none
  | c :: rest =>
    match pyDigitVal c with
    | some v => some (pyDigitGroupAux v 1 rest)
    | none => none

/-- Integer-literal parsing as Python's `int(str)`: optional
surrounding whitespace, an optional ASCII sign, then one or more
Unicode decimal digits with single underscores allowed between
digits. -/
def pyIntOfChars (cs : List Char) : Except PyErr Int :=
  let cs := stripNumChars cs
  let (sign, ds) :=
    match cs with
    | '-' :: rest => ((-1 : Int), rest)
    | '+' :: rest => ((1 : Int), rest)
    | rest => ((1 : Int), rest)
  match pyDigitGroup ds with
  | some (v, _, []) => Except.ok (sign * v)
  | _ => Except.error PyErr.valueError

/-- Python `int(x)` on a loaded JSON value. -/
def pyIntOf : Json → Except PyErr Int
  | Json.int n => Except.ok n
  | Json.float q => Except.ok (truncRat q)
  | Json.bool b => Except.ok (if b then 1 else 0)
  | Json.str s => pyIntOfChars s.data
  | Json.null => Except.error PyErr.typeError
  | Json.arr _ => Except.error PyErr.typeError
  | Json.obj _ => Except.error PyErr.typeError

/-- Float-literal parsing as Python's `float(str)` on decimal
literals: optional whitespace and ASCII sign, underscore-grouped
Unicode digits with an optional fraction part and an optional
`e`/`E` exponent (at least one mantissa digit required).  The IEEE
`inf`/`nan` spellings are not modelled — they have no counterpart in
the exact-rational model of floats and never occur in the analysed
data. -/
def pyFloatOfChars (cs : List Char) : Except PyErr ℚ :=
  let cs := stripNumChars cs
  let (sign, r0) : ℚ × List Char :=
    match cs with
    | '-' :: rest => (-1, rest)
    | '+' :: rest => (1, rest)
    | rest => (1, rest)
  let (iv, ni, r1) : ℕ × ℕ × List Char :=
    match pyDigitGroup r0 with
    | some (v, n, rest) => (v, n, rest)
    | none => (0, 0, r0)
  let (fv, nf, r2) : ℕ × ℕ × List Char :=
    match r1 with
    | '.' :: rest =>
      (match pyDigitGroup rest with
      | some (v, n, rest2) => (v, n, rest2)
      | none => (0, 0, rest))
    | _ => (0, 0, r1)
  if ni + nf = 0 then Except.error PyErr.valueError
  else
    let mant : ℚ := sign * ((iv : ℚ) + (fv : ℚ) / ((10 : ℚ) ^ nf))
    match r2 with
    | [] => Except.ok mant
    | e :: rest =>
      if e = 'e' || e = 'E' then
        let (esign, r3) : Int × List Char :=
          match rest with
          | '-' :: t => (-1, t)
          | '+' :: t => (1, t)
          | t => (1, t)
        match pyDigitGroup r3 with
        | some (ev, _, []) => Except.ok (mant * (10 : ℚ) ^ (esign * ev))
        | _ => Except.error PyErr.valueError
      else Except.error PyErr.valueError

/-- Python `float(x)` on a loaded JSON value. -/
def pyFloatOf : Json → Except PyErr ℚ
  | Json.int n => Except.ok n
  | Json.float q => Except.ok q
  | Json.bool b => Except.ok (if b then 1 else 0)
  | Json.str s => pyFloatOfChars s.data
  | Json.null => Except.error PyErr.typeError
  | Json.arr _ => Except.error PyErr.typeError
  | Json.obj _ => Except.error PyErr.typeError

/-! ### `json.loads` (recursive-descent model of Python's strict JSON parser)

Fuel-based mutual recursion; `jsonParse` supplies fuel that is ample for
its input, and `none` models `json.JSONDecodeError`.  Not modelled:
the non-standard `NaN`/`Infinity` extensions and surrogate-pair
combination in `\u` escapes — neither occurs in the analysed data. -/

def digitsVal (ds : List Char) : ℕ :=
  ds.foldl (fun a c => a * 10 + (c.toNat - '0'.toNat)) 0

def hexNat (c : Char) : ℕ :=
  if c.isDigit then c.toNat - '0'.toNat
  else if 'a' ≤ c && c ≤ 'f' then c.toNat - 'a'.toNat + 10
  else if 'A' ≤ c && c ≤ 'F' then c.toNat - 'A'.toNat + 10
  else 0

def isHexChar (c : Char) : Bool :=
  c.isDigit || ('a' ≤ c && c ≤ 'f') || ('A' ≤ c && c ≤ 'F')

def escChar : Char → Option Char
  | '"' => some '"'
  | '\\' => some '\\'
  | '/' => some '/'
  | 'b' => some '\x08'
  | 'f' => some '\x0c'
  | 'n' => some '\n'
  | 'r' => some '\r'
  | 't' => some '\t'
  | _ => none

/-- Parse a JSON string body (opening quote already consumed); returns
the decoded characters and the remaining input. -/
def parseJStr : List Char → Option (List Char × List Char)
  | [] => none
  | c :: rest =>
    if c = '"' then some ([], rest)
    else if c = '\\' then
      match rest with
      | [] => none
      | e :: rest2 =>
        if e = 'u' then
          match rest2 with
          | h1 :: h2 :: h3 :: h4 :: rest3 =>
            if isHexChar h1 && isHexChar h2 && isHexChar h3 && isHexChar h4 then
              (parseJStr rest3).map fun p =>
                (Char.ofNat (hexNat h1 * 4096 + hexNat h2 * 256 + hexNat h3 * 16 + hexNat h4) :: p.1, p.2)
            else none
          | _ => none
        else
          match escChar e with
          | some d => (parseJStr rest2).map (fun p => (d :: p.1, p.2))
          | none => none
    else if c.toNat < 32 then none
    else (parseJStr rest).map (fun p => (c :: p.1, p.2))

/-- Parse an optional exponent part; `some (none, _)` means no exponent. -/
def parseExpOpt (cs : List Char) : Option (Option Int × List Char) :=
  match cs with
  | e :: r =>
    if e = 'e' || e = 'E' then
      let (es, r2) : Int × List Char :=
        match r with
        | '+' :: t => (1, t)
        | '-' :: t => (-1, t)
        | t => (1, t)
      let ds := r2.takeWhile Char.isDigit
      if ds.isEmpty then none
      else some (some (es * digitsVal ds), r2.drop ds.length)
    else some (none, cs)
  | [] => some (none, [])

/-- Parse a JSON number; integer tokens yield `Json.int`, tokens with a
fraction or exponent yield `Json.float`. -/
def parseJNum (cs : List Char) : Option (Json × List Char) :=
  let (sgn, cs1) : Int × List Char :=
    match cs with
    | '-' :: r => (-1, r)
    | r => (1, r)
  let ip := cs1.takeWhile Char.isDigit
  if ip.isEmpty then none
  else if 1 < ip.length && ip.head? = some '0' then none
  else
    let cs2 := cs1.drop ip.length
    let (fp, cs3, isFrac) : List Char × List Char × Bool :=
      match cs2 with
      | '.' :: r => (r.takeWhile Char.isDigit, r.drop (r.takeWhile Char.isDigit).length, true)
      | _ => ([], cs2, false)
    if isFrac && fp.isEmpty then none
    else
      match parseExpOpt cs3 with
      | none => none
      | some (expv, cs4) =>
        if !isFrac && expv = none then
          some (Json.int (sgn * digitsVal ip), cs4)
        else
          let mant : ℚ := (digitsVal ip : ℚ) + (digitsVal fp : ℚ) / ((10 : ℚ) ^ fp.length)
          some (Json.float ((sgn : ℚ) * mant * (10 : ℚ) ^ (expv.getD 0)), cs4)

/-- JSON inter-token whitespace (space, tab, newline, carriage return). -/
def skipJWs (cs : List Char) : List Char :=
  cs.dropWhile (fun c => c = ' ' || c = '\t' || c = '\n' || c = '\r')

/-- The recursive-descent entry points at one fuel level: a value
parser and the element loops for arrays and objects. -/
structure JParsers where
  val : List Char → Option (Json × List Char)
  arrItems : List Char → List Json → Option (Json × List Char)
  objItems : List Char → List (String × Json) → Option (Json × List Char)

def jparsersZero : JParsers where
  val := fun _ => none
  arrItems := fun _ _ => none
  objItems := fun _ _ => none

/-- One fuel step: every recursive call goes through the previous
level, so the recursion is plain structural recursion on fuel. -/
def jparsersStep (prev : JParsers) : JParsers where
  val := fun cs =>
    match skipJWs cs with
    | 'n' :: 'u' :: 'l' :: 'l' :: rest => some (Json.null, rest)
    | 't' :: 'r' :: 'u' :: 'e' :: rest => some (Json.bool true, rest)
    | 'f' :: 'a' :: 'l' :: 's' :: 'e' :: rest => some (Json.bool false, rest)
    | '"' :: rest => (parseJStr rest).map (fun p => (Json.str (String.mk p.1), p.2))
    | '[' :: rest =>
      (match skipJWs rest with
      | ']' :: rest2 => some (Json.arr [], rest2)
      | _ => prev.arrItems rest [])
    | '{' :: rest =>
      (match skipJWs rest with
      | '}' :: rest2 => some (Json.obj [], rest2)
      | _ => prev.objItems rest [])
    | rest => parseJNum rest
  arrItems := fun cs acc =>
    match prev.val cs with
    | none => none
    | some (v, rest) =>
      match skipJWs rest with
      | ',' :: rest2 => prev.arrItems rest2 (acc ++ [v])
      | ']' :: rest2 => some (Json.arr (acc ++ [v]), rest2)
      | _ => none
  objItems := fun cs acc =>
    match skipJWs cs with
    | '"' :: rest =>
      (match parseJStr rest with
      | none => none
      | some (k, rest2) =>
        match skipJWs rest2 with
        | ':' :: rest3 =>
          (match prev.val rest3 with
          | none => none
          | some (v, rest4) =>
            match skipJWs rest4 with
            | ',' :: rest5 => prev.objItems rest5 (acc ++ [(String.mk k, v)])
            | '}' :: rest5 => some (Json.obj (acc ++ [(String.mk k, v)]), rest5)
            | _ => none)
        | _ => none)
    | _ => none

def jparsers : ℕ → JParsers
  | 0 => jparsersZero
  | Nat.succ n => jparsersStep (jparsers n)

/-- `json.loads`: parse one JSON document, allowing surrounding
whitespace, rejecting trailing garbage.  `none` models
`json.JSONDecodeError`.  The fuel is ample: every level of value
nesting and every array/object element consumes at least one input
character. -/
def jsonParse (s : String) : Option Json :=
  match (jparsers (8 * s.length + 8)).val s.data with
  | some (v, rest) => if (skipJWs rest).isEmpty then some v else none
  | none => none

/-! ### Fenced-block extraction

Models `re.search(r'```json\s*(.*?)\s*```', response_text, re.DOTALL)`
and `.group(1)` in `_parse_salon_response` (analyzer.py:191): the text
after the first occurrence of the literal opener, with leading
whitespace skipped (greedy leading `\s*`), cut at the first subsequent
occurrence of the closing backtick fence (lazy `.*?`), with the
whitespace run adjoining the fence removed (trailing `\s*`).  If the
first opener has no closing fence then no later opener can have one
either (a later opener itself contains a fence), so the search fails. -/

def dropAfterFirst (marker : List Char) : List Char → Option (List Char)
  | [] => none
  | c :: rest =>
    if isPrefixOfChars marker (c :: rest) then some ((c :: rest).drop marker.length)
    else dropAfterFirst marker rest

def takeBeforeFirst (marker : List Char) : List Char → Option (List Char)
  | [] => none
  | c :: rest =>
    if isPrefixOfChars marker (c :: rest) then some []
    else (takeBeforeFirst marker rest).map (c :: ·)

def extractJsonBlock (text : String) : Option String :=
  match dropAfterFirst "```json".data text.data with
  | none => none
  | some afterOpen =>
    let content := afterOpen.dropWhile isPySpace
    match takeBeforeFirst "```".data content with
    | none => none
    | some body => some (String.mk (rstripChars body))

/-! ### `SalonScore` and `_parse_salon_response` (analyzer.py:21-43, 179-235)

Python dataclass fields are dynamically typed, so every field that the
code fills with an arbitrary loaded JSON value (names, list fields,
ratio maps) is typed `Json` here; the four sub-scores always pass
through `int(...)` and the total through `float(...)`, so those are
`Int` and `ℚ`. -/

structure SalonScore where
  name : Json
  url : String
  pv_score : Int
  cv_score : Int
  price_score : Int
  diff_score : Int
  total_score : ℚ
  strengths : Json
  weaknesses : Json
  improvements : Json
  raw_analysis : String
  pv_details : Json
  cv_details : Json
  price_details : Json
  diff_details : Json
  gender_ratio : Json
  age_ratio : Json

/-- The fallback record built at analyzer.py:219-235 when no JSON block
is found or parsing fails (the unspecified dataclass defaults leave the
ratio maps `None`). -/
def placeholderScore (responseText url : String) : SalonScore where
  name := Json.str "解析中のサロン"
  url := url
  pv_score := 3
  cv_score := 3
  price_score := 3
  diff_score := 3
  total_score := 3
  strengths := Json.arr [Json.str "解析結果を取得中"]
  weaknesses := Json.arr [Json.str "解析結果を取得中"]
  improvements := Json.arr [Json.str "解析結果を取得中"]
  raw_analysis := responseText
  pv_details := Json.arr []
  cv_details := Json.arr []
  price_details := Json.arr []
  diff_details := Json.arr []
  gender_ratio := Json.null
  age_ratio := Json.null

/-- The `SalonScore(...)` construction at analyzer.py:196-214 applied to
the loaded JSON document.  `data.get` on a non-dict raises
`AttributeError`; `int(...)`/`float(...)` raise as modelled by
`pyIntOf`/`pyFloatOf`. -/
def salonFromData (data : Json) (responseText url : String) : Except PyErr SalonScore :=
  match data with
  | Json.obj fs =>
    match pyIntOf (pyOr (jget fs "pv_score") (Json.int 3)) with
    | Except.error e => Except.error e
    | Except.ok pv =>
    match pyIntOf (pyOr (jget fs "cv_score") (Json.int 3)) with
    | Except.error e => Except.error e
    | Except.ok cv =>
    match pyIntOf (pyOr (jget fs "price_score") (Json.int 3)) with
    | Except.error e => Except.error e
    | Except.ok price =>
    match pyIntOf (pyOr (jget fs "diff_score") (Json.int 3)) with
    | Except.error e => Except.error e
    | Except.ok diff =>
    match pyFloatOf (pyOr (jget fs "total_score") (Json.float 3)) with
    | Except.error e => Except.error e
    | Except.ok total =>
    Except.ok
      { name := pyOr (jget fs "name") (Json.str "不明")
        url := url
        pv_score := pv
        cv_score := cv
        price_score := price
        diff_score := diff
        total_score := total
        strengths := pyOr (jget fs "strengths") (Json.arr [])
        weaknesses := pyOr (jget fs "weaknesses") (Json.arr [])
        improvements := pyOr (jget fs "improvements") (Json.arr [])
        raw_analysis := responseText
        pv_details := pyOr (jget fs "pv_details") (Json.arr [])
        cv_details := pyOr (jget fs "cv_details") (Json.arr [])
        price_details := pyOr (jget fs "price_details") (Json.arr [])
        diff_details := pyOr (jget fs "diff_details") (Json.arr [])
        gender_ratio := jget fs "gender_ratio"
        age_ratio := jget fs "age_ratio" }
  | _ => Except.error PyErr.attributeError

/-- Spec-side helper (used only in theorem statements): the value a
list-typed field ends up with — verbatim when present, `[]` when the
key is absent/`null`. -/
def listOrEmpty : Json → Json
  | Json.null => Json.arr []
  | j => j

/-- The `except (json.JSONDecodeError, KeyError, ValueError)` clause at
analyzer.py:215 (decode errors are already `none` from `jsonParse`). -/
def caughtByParse : PyErr → Bool
  | PyErr.valueError => true
  | PyErr.keyError => true
  | _ => false

/-- `_parse_salon_response` (analyzer.py:179-235).  An uncaught
exception (e.g. `AttributeError` from a non-object document) is
`Except.error`. -/
def parseSalonResponse (responseText url : String) : Except PyErr SalonScore :=
  match extractJsonBlock responseText with
  | none => Except.ok (placeholderScore responseText url)
  | some block =>
    match jsonParse block with
    | none => Except.ok (placeholderScore responseText url)
    | some data =>
      match salonFromData data responseText url with
      | Except.ok s => Except.ok s
      | Except.error e =>
        if caughtByParse e then Except.ok (placeholderScore responseText url)
        else Except.error e

/-! ### Recommendation extraction, `_generate_comparison` (analyzer.py:289-301) -/

/-- `line.strip().startswith(('1.', '2.', '3.', '-', '・'))`. -/
def startsWithRecMarker (l : List Char) : Bool :=
  isPrefixOfChars "1.".data l || isPrefixOfChars "2.".data l || isPrefixOfChars "3.".data l ||
  isPrefixOfChars "-".data l || isPrefixOfChars "・".data l

/-- The character class of `re.sub(r'^[\d\.\-・\s]+', '', ...)`. -/
def isRecMarkerChar (c : Char) : Bool :=
  c.isDigit || c = '.' || c = '-' || c = '・' || isPySpace c

/-- One iteration of the loop at analyzer.py:292-296: a stripped line
carrying a recognised marker contributes its cleaned remainder. -/
def recOfLine (line : List Char) : Option String :=
  let st := stripChars line
  if startsWithRecMarker st then
    let cleaned := st.dropWhile isRecMarkerChar
    if cleaned.isEmpty then none else some (String.mk cleaned)
  else none

/-- Recommendation extraction from the comparison narrative
(analyzer.py:289-301): marker lines in order, generic placeholder when
none matched, truncated to 5. -/
def extractRecommendations (responseText : String) : List String :=
  let recs := ((splitNl responseText.data).filterMap recOfLine)
  let recs := if recs.isEmpty then ["詳細な分析結果をご確認ください"] else recs
  recs.take 5

/-! ### `compare_salons` (analyzer.py:109-144) and `run_analysis` (app.py:262-270)

The two AI calls are abstracted by oracles: `respond url isMySalon`
is the text the model returns for one listing, and `summaryText` the
narrative returned by the comparison call.  `analyzeSalon` is then
`analyze_salon` = AI call + `_parse_salon_response`. -/

def analyzeSalon (respond : String → Bool → String) (url : String) (isMySalon : Bool) :
    Except PyErr SalonScore :=
  parseSalonResponse (respond url isMySalon) url

structure ComparisonResult where
  my_salon : SalonScore
  competitors : List SalonScore
  comparison_summary : String
  recommendations : List String

/-- The loop `for url in competitor_urls: if url: competitor =
self.analyze_salon(url); competitors.append(competitor)` at
analyzer.py:128-132: blank entries are skipped by the `if url:` guard,
records accumulate in submission order, an exception from any
`analyze_salon` call aborts the loop and propagates. -/
def analyzeCompetitors (respond : String → Bool → String) :
    List String → Except PyErr (List SalonScore)
  | [] => Except.ok []
  | url :: rest =>
    if url = "" then analyzeCompetitors respond rest
    else
      match analyzeSalon respond url false with
      | Except.error e => Except.error e
      | Except.ok s =>
        match analyzeCompetitors respond rest with
        | Except.error e => Except.error e
        | Except.ok others => Except.ok (s :: others)

/-- `compare_salons` (analyzer.py:109-144): own salon analyzed first,
then the competitor loop, then the comparison narrative (oracle) and
recommendation extraction. -/
def compareSalons (respond : String → Bool → String) (summaryText : String)
    (mySalonUrl : String) (competitorUrls : List String) : Except PyErr ComparisonResult :=
  match analyzeSalon respond mySalonUrl true with
  | Except.error e => Except.error e
  | Except.ok my =>
    match analyzeCompetitors respond competitorUrls with
    | Except.error e => Except.error e
    | Except.ok competitors =>
      Except.ok
        { my_salon := my
          competitors := competitors
          comparison_summary := summaryText
          recommendations := extractRecommendations summaryText }

/-- The filter at app.py:270:
`[url for url in competitor_urls if url and url.strip()]`. -/
def validCompetitors (urls : List String) : List String :=
  urls.filter (fun u => !(u == "") && !(stripChars u.data).isEmpty)

/-- The analysis pipeline of `run_analysis` (app.py:262-270, 320):
filter the competitor inputs, then `compare_salons`. -/
def runAnalysis (respond : String → Bool → String) (summaryText : String)
    (myUrl : String) (competitorUrls : List String) : Except PyErr ComparisonResult :=
  compareSalons respond summaryText myUrl (validCompetitors competitorUrls)

/-- The sequence of `analyze_salon` invocations (hence AI calls) that
`compare_salons` performs, in order: the own salon first, then one call
per competitor URL that passes the loop's `if url:` guard.  Derived
from the control flow of analyzer.py:124-132. -/
def compareSalonsCalls (mySalonUrl : String) (competitorUrls : List String) :
    List (String × Bool) :=
  (mySalonUrl, true) :: (competitorUrls.filter (fun u => u ≠ "")).map (fun u => (u, false))

/-- The AI-call sequence of the `run_analysis` pipeline. -/
def runAnalysisCalls (myUrl : String) (competitorUrls : List String) : List (String × Bool) :=
  compareSalonsCalls myUrl (validCompetitors competitorUrls)

/-! ### Star-string rendering (three independent call sites) -/

/-- Python string repetition `s * n` (empty for `n ≤ 0`). -/
def pyRepeatStr (s : String) (n : Int) : String :=
  String.mk (List.flatten (List.replicate n.toNat s.data))

/-- `_score_stars` (pdf_generator.py:600-602):
`"★" * score + "☆" * (5 - score)`. -/
def scoreStars (score : Int) : String :=
  pyRepeatStr "★" score ++ pyRepeatStr "☆" (5 - score)

/-- The star cells of `create_score_summary_cards` (chart.py:350-366). -/
def summaryCardStars (p : Int) : String :=
  pyRepeatStr "★" p ++ pyRepeatStr "☆" (5 - p)

/-- The star readouts of `generate_text_report` (app.py:701-704). -/
def reportStars (p : Int) : String :=
  pyRepeatStr "★" p ++ pyRepeatStr "☆" (5 - p)

/-! ### `extract_youtube_id` (app.py:48-59) -/

/-- The id character class `[a-zA-Z0-9_-]`. -/
def isIdChar (c : Char) : Bool :=
  c.isAlphanum || c = '_' || c = '-'

/-- `re.search(prefix + '([a-zA-Z0-9_-]+)', url)`: leftmost occurrence
of the literal prefix followed by at least one id character; the greedy
`+` takes the maximal id-character run. -/
def searchPrefixId (pat : List Char) : List Char → Option String
  | [] => none
  | c :: rest =>
    if isPrefixOfChars pat (c :: rest) then
      let idChars := ((c :: rest).drop pat.length).takeWhile isIdChar
      if idChars.isEmpty then searchPrefixId pat rest
      else some (String.mk idChars)
    else searchPrefixId pat rest

def extractYoutubeId (url : String) : Option String :=
  match searchPrefixId "youtu.be/".data url.data with
  | some vid => some vid
  | none => searchPrefixId "youtube.com/watch?v=".data url.data

/-! ### `create_age_bar_chart` (chart.py:281-329)

Only the data-bearing attributes of the produced Plotly figure are
modelled (bar values/labels, text annotations and their position, the
x-axis range, the reversed y-axis flag); colors, sizes and hover
templates carry no verified content.  The `age_ratio` dict is a partial
map; `1.2` is the exact rational `6/5`. -/

structure AgeBarChart where
  labels : List String
  values : List Int
  textLabels : List String
  textposition : String
  xRange : ℚ × ℚ
  yAxisReversed : Bool

/-- Python `max` over a list; the empty case never arises in guarded
uses (Python would raise there). -/
def listMax : List Int → Int
  | [] => 0
  | x :: xs => xs.foldl max x

/-- The age-ratio example used in the specification:
`{under_10s: 5, "20s": 33, "30s": 28, "40s": 19, "50s_plus": 15}`. -/
def exAgeRatio : String → Option Int := fun k =>
  if k = "under_10s" then some 5
  else if k = "20s" then some 33
  else if k = "30s" then some 28
  else if k = "40s" then some 19
  else if k = "50s_plus" then some 15
  else none

def createAgeBarChart (ageRatio : String → Option Int) : AgeBarChart :=
  let values := [(ageRatio "under_10s").getD 0, (ageRatio "20s").getD 0,
    (ageRatio "30s").getD 0, (ageRatio "40s").getD 0, (ageRatio "50s_plus").getD 0]
  { labels := ["〜10代", "20代", "30代", "40代", "50代〜"]
    values := values
    textLabels := values.map (fun v => toString v ++ "%")
    textposition := "outside"
    xRange := (0, if values.isEmpty then 50 else (listMax values : ℚ) * (6 / 5))
    yAxisReversed := true }

/-! ### Prototype keyword scoring (app_sample.py:276-439) -/

/-- Python's `round()`: nearest integer, ties to even. -/
def pyRound (q : ℚ) : Int :=
  if q - ⌊q⌋ < 1 / 2 then ⌊q⌋
  else if 1 / 2 < q - ⌊q⌋ then ⌊q⌋ + 1
  else if ⌊q⌋ % 2 = 0 then ⌊q⌋ else ⌊q⌋ + 1

/-- Python's `round(x, 1)` (exact-rational model of the one-decimal
rounding used by `stabilize_scores`). -/
def pyRound1 (q : ℚ) : ℚ :=
  (pyRound (10 * q) : ℚ) / 10

/-- Case-insensitive prefix test (`re.IGNORECASE`; ASCII case only,
which is all that can differ in the analysed texts). -/
def isPrefixOfCI : List Char → List Char → Bool
  | [], _ => true
  | _ :: _, [] => false
  | a :: as, b :: bs => (a.toLower = b.toLower) && isPrefixOfCI as bs

/-- Scanner for `countSubCI`, structurally recursive on fuel; one fuel
unit per scan step, and every step consumes at least one character, so
`length + 1` fuel is ample. -/
def countSubCIAux (kw : List Char) : ℕ → List Char → ℕ
  | 0, _ => 0
  | Nat.succ _, [] => if kw.isEmpty then 1 else 0
  | Nat.succ fuel, c :: rest =>
    if !kw.isEmpty && isPrefixOfCI kw (c :: rest) then
      1 + countSubCIAux kw fuel (rest.drop (kw.length - 1))
    else
      (if kw.isEmpty then 1 else 0) + countSubCIAux kw fuel rest

/-- `len(re.findall(re.escape(keyword), text, re.IGNORECASE))`:
non-overlapping, case-insensitive occurrence count (an empty pattern
matches once per position, as `re.findall` does). -/
def countSubCI (kw text : List Char) : ℕ :=
  countSubCIAux kw (text.length + 1) text

/-- Total match count of one keyword tier over a text. -/
def tierCount (text : List Char) (kws : List String) : ℕ :=
  (kws.map (fun k => countSubCI k.data text)).sum

/-- The zero-width test `(?=\d+\.|\n\n|\Z)` of the first category
pattern: `\d+\.` holds at a position iff it starts with a digit and the
character after the maximal digit run is `.`. -/
def digitsDotAhead (l : List Char) : Bool :=
  let ds := l.takeWhile Char.isDigit
  !ds.isEmpty && (l.drop ds.length).head? = some '.'

def la1 (l : List Char) : Bool :=
  digitsDotAhead l || isPrefixOfChars "\n\n".data l || l.isEmpty

/-- The lookahead `(?=【|\d+\.|\n\n|\Z)` of the second category pattern. -/
def la2 (l : List Char) : Bool :=
  l.head? = some '【' || digitsDotAhead l || isPrefixOfChars "\n\n".data l || l.isEmpty

/-- First alternative (in order) matching at this position, with its
consumed length. -/
def matchStarterCI (starters : List (List Char)) (l : List Char) : Option ℕ :=
  starters.findSome? (fun st => if isPrefixOfCI st l then some st.length else none)

/-- Characters consumed by lazy `.*?` (DOTALL) before the lookahead
first holds; the lookaheads used here always hold at the end of input
(`\Z`), so this is well-defined. -/
def lazyEnd (la : List Char → Bool) : List Char → ℕ
  | [] => 0
  | c :: rest => if la (c :: rest) then 0 else 1 + lazyEnd la rest

/-- Scanner for `findallLazy`, structurally recursive on fuel; every
step consumes at least one character, so `length + 1` fuel is ample. -/
def findallLazyAux (starters : List (List Char)) (la : List Char → Bool) :
    ℕ → List Char → List (List Char)
  | 0, _ => []
  | Nat.succ _, [] => []
  | Nat.succ fuel, c :: rest =>
    match matchStarterCI starters (c :: rest) with
    | some k =>
      let contentLen := lazyEnd la ((c :: rest).drop k)
      let matched := (c :: rest).take (k + contentLen)
      matched :: findallLazyAux starters la fuel ((c :: rest).drop (max (k + contentLen) 1))
    | none => findallLazyAux starters la fuel rest

/-- `re.findall(starter-alternation ++ lazy-dot-star ++ lookahead, text,
re.DOTALL | re.IGNORECASE)`: leftmost non-overlapping matches, scanning
resumes after each match (advancing at least one character, as `re`
does on an empty match). -/
def findallLazy (starters : List (List Char)) (la : List Char → Bool)
    (text : List Char) : List (List Char) :=
  findallLazyAux starters la (text.length + 1) text

/-- The category-text isolation of `calculate_detailed_category_score`
(app_sample.py:359-369): both patterns' matches, each list joined with
single spaces, concatenated. -/
def categoryTextOf (category analysisText : String) : List Char :=
  let m1 := findallLazy [category.data] la1 analysisText.data
  let catND := category.data.filter (fun c => c ≠ '・')
  let m2 := findallLazy ["【".data ++ category.data ++ "】".data, category.data, catND]
    la2 analysisText.data
  (if m1.isEmpty then [] else List.intercalate [' '] m1) ++
  (if m2.isEmpty then [] else List.intercalate [' '] m2)

structure KeywordTiers where
  excellent : List String
  good : List String
  average : List String
  poor : List String

/-- The text actually scanned for keywords: the isolated category text,
or the whole narrative when the isolation found nothing
(app_sample.py:372-373). -/
def effectiveCategoryText (category analysisText : String) : List Char :=
  let ct0 := categoryTextOf category analysisText
  if ct0.isEmpty then analysisText.data else ct0

/-- `calculate_detailed_category_score` (app_sample.py:346-411). -/
def calculateDetailedCategoryScore (analysisText category : String)
    (keywords : KeywordTiers) : Int :=
  let ct := effectiveCategoryText category analysisText
  let excellentCount := tierCount ct keywords.excellent
  let goodCount := tierCount ct keywords.good
  let averageCount := tierCount ct keywords.average
  let poorCount := tierCount ct keywords.poor
  let totalMatches := excellentCount + goodCount + averageCount + poorCount
  if totalMatches = 0 then 5
  else
    max 1 (min 10 (pyRound
      ((excellentCount * 10 + goodCount * 7 + averageCount * 5 + poorCount * 2 : ℚ) /
        (totalMatches : ℚ))))

/-- The six scoring categories of `detailed_keywords`
(app_sample.py:289-326). -/
inductive Category where
  | branding
  | ux
  | contentMkt
  | seo
  | pricing
  | trust
deriving DecidableEq

def catName : Category → String
  | Category.branding => "ブランディング・デザイン"
  | Category.ux => "ユーザーエクスペリエンス"
  | Category.contentMkt => "コンテンツマーケティング"
  | Category.seo => "SEO・集客戦略"
  | Category.pricing => "価格戦略・プロモーション"
  | Category.trust => "信頼性・専門性"

/-- The keyword dictionary `detailed_keywords` (app_sample.py:289-326),
reproduced verbatim. -/
def keywordsFor : Category → KeywordTiers
  | Category.branding =>
    { excellent := ["統一されたビジュアル", "プロフェッショナル", "洗練", "ブランドアイデンティティ",
        "デザインの一貫性", "高品質な画像", "ブランドカラー", "美しいレイアウト"]
      good := ["清潔感", "見やすい", "整理された", "統一感", "シンプル", "分かりやすい", "美しい", "魅力的"]
      average := ["普通", "標準的", "一般的", "基本的", "まずまず", "可もなく不可もなく"]
      poor := ["古い", "統一感がない", "分かりにくい", "雑然", "ごちゃごちゃ", "低品質", "見づらい", "デザインが古い"] }
  | Category.ux =>
    { excellent := ["直感的", "ナビゲーションが優秀", "使いやすい", "スムーズ", "高速", "モバイル最適化",
        "予約しやすい", "UXが秀逸"]
      good := ["使いやすい", "ナビゲーションが良い", "操作しやすい", "分かりやすい", "便利", "快適"]
      average := ["普通", "標準的", "まずまず", "基本的な機能"]
      poor := ["分かりにくい", "使いづらい", "複雑", "不便", "遅い", "モバイル非対応", "予約が難しい"] }
  | Category.contentMkt =>
    { excellent := ["豊富なコンテンツ", "魅力的な写真", "ストーリーテリング", "充実したブログ", "SNS連携", "継続的更新"]
      good := ["コンテンツが豊富", "写真が魅力的", "ブログ更新", "SNS活用", "情報充実"]
      average := ["普通のコンテンツ", "基本的な情報", "まずまず"]
      poor := ["コンテンツ不足", "更新されていない", "情報が少ない", "古い情報", "魅力に欠ける"] }
  | Category.seo =>
    { excellent := ["SEO最適化", "検索上位", "SNS活用", "Web集客", "デジタルマーケティング", "効果的な集客"]
      good := ["SEO対策", "SNS連携", "Web活用", "集客施策"]
      average := ["基本的なSEO", "普通の集客"]
      poor := ["SEO対策不足", "集客力が弱い", "Web活用が不十分", "検索されにくい"] }
  | Category.pricing =>
    { excellent := ["料金が明確", "魅力的な価格", "お得なプラン", "キャンペーン充実", "価格競争力"]
      good := ["料金体系が分かりやすい", "リーズナブル", "キャンペーンあり", "価格設定が良い"]
      average := ["普通の価格設定", "標準的な料金", "まずまずの価格"]
      poor := ["料金が不明確", "高すぎる", "キャンペーンなし", "価格競争力がない", "料金体系が複雑"] }
  | Category.trust =>
    { excellent := ["資格保有者多数", "実績豊富", "専門知識", "技術力が高い", "信頼できる", "経験豊富"]
      good := ["資格あり", "実績がある", "信頼できる", "技術力", "専門性"]
      average := ["普通の実績", "基本的な技術", "まずまず"]
      poor := ["実績が少ない", "専門性に欠ける", "信頼性に疑問", "技術力不足", "情報不足"] }

/-- `extract_scores_from_analysis` (app_sample.py:276-343): the result
dict maps every category to its computed score (the initial `5`s are
all overwritten by the loop over `detailed_keywords`). -/
def extractScoresFromAnalysis (analysisText : String) (c : Category) : Int :=
  calculateDetailedCategoryScore analysisText (catName c) (keywordsFor c)

/-- `stabilize_scores` (app_sample.py:414-439): run the (deterministic)
extraction `numRuns` times, average per category, round to one decimal.
`num_runs = 0` would raise `IndexError` at `all_scores[0]`, hence
`none`. -/
def stabilizeScores (analysisText : String) (numRuns : ℕ) : Option (Category → ℚ) :=
  if numRuns = 0 then none
  else some (fun c =>
    pyRound1
      ((((List.replicate numRuns (extractScoresFromAnalysis analysisText c)).sum : ℤ) : ℚ) /
        (numRuns : ℚ)))

/-! ## Theorems -/

lemma flatten_replicate_singleton (n : ℕ) (c : Char) :
    (List.replicate n [c]).flatten = List.replicate n c := by
  induction n with
  | zero => rfl
  | succ k ih => simp [List.replicate_succ, ih]

/-- C1 (counterexample): on a narrative of exactly 7 lines beginning
`1.` … `7.`, recommendation extraction returns 3 entries, not the 5
the claim demands — lines starting `4.`–`7.` are not recognised. -/
theorem recommendations_seven_lines_counterexample :
    extractRecommendations "1. a\n2. b\n3. c\n4. d\n5. e\n6. f\n7. g" = ["a", "b", "c"] ∧
    (extractRecommendations "1. a\n2. b\n3. c\n4. d\n5. e\n6. f\n7. g").length ≠ 5 := by
  have h : extractRecommendations "1. a\n2. b\n3. c\n4. d\n5. e\n6. f\n7. g"
      = ["a", "b", "c"] := rfl
  exact ⟨h, by rw [h]; decide⟩

/-- C1 (amended): recommendation extraction detects lines whose
stripped form begins with one of the literal markers `1.`, `2.`, `3.`,
`-`, `・` (not arbitrary digit enumerators), strips the leading run of
digits/dots/dashes/middle-dots/whitespace, and keeps at most the first
5 such lines in narrative order; the 7-line enumerated narrative yields
exactly the 3 entries coming from its `1.`, `2.`, `3.` lines. -/
theorem recommendations_literal_markers :
    (∀ text : String, (extractRecommendations text).length ≤ 5) ∧
    extractRecommendations "1. a\n2. b\n3. c\n4. d\n5. e\n6. f\n7. g" = ["a", "b", "c"] ∧
    extractRecommendations "- x\n・ y\n1. z" = ["x", "y", "z"] := by
  refine ⟨fun text => ?_, rfl, rfl⟩
  simp only [extractRecommendations]
  exact List.length_take_le 5 _

/-- C7: all three star renderings produce, for `p ∈ [0,5]`, exactly 5
glyphs — `p` filled stars then `5-p` hollow ones — with the all-hollow
and all-filled boundary cases. -/
theorem star_rendering_five_glyphs (p : Int) (h0 : 0 ≤ p) (h5 : p ≤ 5) :
    (scoreStars p).data = List.replicate p.toNat '★' ++ List.replicate (5 - p).toNat '☆' ∧
    (scoreStars p).data.length = 5 ∧
    summaryCardStars p = scoreStars p ∧
    reportStars p = scoreStars p ∧
    scoreStars 0 = "☆☆☆☆☆" ∧ scoreStars 5 = "★★★★★" := by
  have hdata : (scoreStars p).data
      = List.replicate p.toNat '★' ++ List.replicate (5 - p).toNat '☆' := by
    show (pyRepeatStr "★" p ++ pyRepeatStr "☆" (5 - p)).data = _
    rw [String.data_append]
    simp [pyRepeatStr, flatten_replicate_singleton]
  refine ⟨hdata, ?_, rfl, rfl, rfl, rfl⟩
  rw [hdata]
  simp only [List.length_append, List.length_replicate]
  omega

/-- C8 (counterexample): with no age data at all the x-axis upper bound
is `0` (the maximum of the five zero bands times 1.2), not the `50` the
claim promises for the no-data case — the `else 50` branch guards on
the five-element value list being empty, which never happens. -/
theorem age_chart_no_data_counterexample :
    (createAgeBarChart (fun _ => none)).xRange.2 = 0 ∧ ((0 : ℚ) ≠ 50) := by
  constructor
  · show (if ([0, 0, 0, 0, 0] : List Int).isEmpty then (50 : ℚ)
      else (listMax [0, 0, 0, 0, 0] : ℚ) * (6 / 5)) = 0
    norm_num [listMax]
  · norm_num

/-- C8 (amended): the age bar chart renders the five fixed bands in the
fixed youngest-first order with a reversed y-axis, labels each value
with a `%` suffix placed outside the bar, and always sets the x-axis
upper bound to 1.2× the maximum of the five values (the `50` no-data
fallback is dead code: the five-element value list is never empty, an
all-absent ratio giving upper bound 0); on the specification's example
ratio the labels are `5% 33% 28% 19% 15%` in band order, the values sum
to 100 and the upper bound is `39.6`. -/
theorem age_chart_layout :
    (∀ ratio : String → Option Int,
      (createAgeBarChart ratio).labels = ["〜10代", "20代", "30代", "40代", "50代〜"] ∧
      (createAgeBarChart ratio).textLabels =
        (createAgeBarChart ratio).values.map (fun v => toString v ++ "%") ∧
      (createAgeBarChart ratio).textposition = "outside" ∧
      (createAgeBarChart ratio).yAxisReversed = true ∧
      (createAgeBarChart ratio).xRange =
        (0, (listMax (createAgeBarChart ratio).values : ℚ) * (6 / 5))) ∧
    (createAgeBarChart exAgeRatio).textLabels = ["5%", "33%", "28%", "19%", "15%"] ∧
    ((createAgeBarChart exAgeRatio).values.sum = 100) ∧
    (createAgeBarChart exAgeRatio).xRange.2 = 198 / 5 := by
  refine ⟨fun ratio => ⟨rfl, rfl, rfl, rfl, rfl⟩, rfl, by decide, ?_⟩
  show ((33 : Int) : ℚ) * (6 / 5) = 198 / 5
  norm_num

lemma pyRound_intCast (m : ℤ) : pyRound (m : ℚ) = m := by
  unfold pyRound
  rw [Int.floor_intCast]
  norm_num

lemma pyRound1_intCast (m : ℤ) : pyRound1 (m : ℚ) = m := by
  unfold pyRound1
  have h : (10 : ℚ) * m = ((10 * m : ℤ) : ℚ) := by push_cast; ring
  rw [h, pyRound_intCast]
  push_cast
  ring

lemma pyRound_nearest (q : ℚ) : |(pyRound q : ℚ) - q| ≤ 1 / 2 := by
  unfold pyRound
  have h0 : (⌊q⌋ : ℚ) ≤ q := Int.floor_le q
  have h1 : q < ⌊q⌋ + 1 := Int.lt_floor_add_one q
  split_ifs with ha hb hc <;> rw [abs_le] <;> constructor <;> push_cast <;> linarith

lemma calculate_score_zero_counts (text cat : String) (kws : KeywordTiers)
    (he : tierCount (effectiveCategoryText cat text) kws.excellent = 0)
    (hg : tierCount (effectiveCategoryText cat text) kws.good = 0)
    (ha : tierCount (effectiveCategoryText cat text) kws.average = 0)
    (hp : tierCount (effectiveCategoryText cat text) kws.poor = 0) :
    calculateDetailedCategoryScore text cat kws = 5 := by
  simp only [calculateDetailedCategoryScore]
  rw [he, hg, ha, hp]
  norm_num

lemma calculate_score_of_counts (text cat : String) (kws : KeywordTiers) (e g a p : ℕ)
    (he : tierCount (effectiveCategoryText cat text) kws.excellent = e)
    (hg : tierCount (effectiveCategoryText cat text) kws.good = g)
    (ha : tierCount (effectiveCategoryText cat text) kws.average = a)
    (hp : tierCount (effectiveCategoryText cat text) kws.poor = p)
    (hne : e + g + a + p ≠ 0) :
    calculateDetailedCategoryScore text cat kws =
      max 1 (min 10 (pyRound
        ((e * 10 + g * 7 + a * 5 + p * 2 : ℚ) / ((e + g + a + p : ℕ) : ℚ)))) := by
  simp only [calculateDetailedCategoryScore]
  rw [he, hg, ha, hp, if_neg hne]

/-- C5: the score-stabilization routine — three (indeed any positive
number of) repeated scoring runs over the same narrative, averaged and
rounded to one decimal — returns, for every category, exactly the value
of a single scoring run: the repetition is a no-op. -/
theorem stabilize_scores_single_run_noop (analysisText : String) (numRuns : ℕ)
    (h : numRuns ≠ 0) :
    stabilizeScores analysisText numRuns
      = some (fun c => (extractScoresFromAnalysis analysisText c : ℚ)) := by
  unfold stabilizeScores
  rw [if_neg h]
  congr 1
  funext c
  have hn : (numRuns : ℚ) ≠ 0 := Nat.cast_ne_zero.mpr h
  rw [List.sum_replicate, nsmul_eq_mul]
  push_cast
  rw [mul_comm, mul_div_assoc, div_self hn, mul_one, pyRound1_intCast]

/-- C5 witness. -/
theorem stabilize_scores_single_run_noop_witness :
    stabilizeScores "普通" 3
      = some (fun c => (extractScoresFromAnalysis "普通" c : ℚ)) :=
  stabilize_scores_single_run_noop "普通" 3 (by decide)

/-- C4: prototype keyword-frequency category scoring is the weighted
average of tier match counts with weights 10/7/5/2 over the total match
count, rounded to the nearest integer (ties to even, a nearest-integer
rounding) and clamped to `[1,10]`; zero total matches give exactly 5; a
text with exactly two excellent-tier matches and zero others scores
exactly 10, and a text with no matches scores exactly 5. -/
theorem keyword_category_score_weighted_average :
    (∀ text cat : String, ∀ kws : KeywordTiers,
      tierCount (effectiveCategoryText cat text) kws.excellent = 0 →
      tierCount (effectiveCategoryText cat text) kws.good = 0 →
      tierCount (effectiveCategoryText cat text) kws.average = 0 →
      tierCount (effectiveCategoryText cat text) kws.poor = 0 →
      calculateDetailedCategoryScore text cat kws = 5) ∧
    (∀ text cat : String, ∀ kws : KeywordTiers, ∀ e g a p : ℕ,
      tierCount (effectiveCategoryText cat text) kws.excellent = e →
      tierCount (effectiveCategoryText cat text) kws.good = g →
      tierCount (effectiveCategoryText cat text) kws.average = a →
      tierCount (effectiveCategoryText cat text) kws.poor = p →
      e + g + a + p ≠ 0 →
      calculateDetailedCategoryScore text cat kws =
        max 1 (min 10 (pyRound
          ((e * 10 + g * 7 + a * 5 + p * 2 : ℚ) / ((e + g + a + p : ℕ) : ℚ))))) ∧
    (∀ q : ℚ, |(pyRound q : ℚ) - q| ≤ 1 / 2) ∧
    calculateDetailedCategoryScore "洗練されたプロフェッショナルな印象"
      (catName Category.branding) (keywordsFor Category.branding) = 10 ∧
    calculateDetailedCategoryScore "こんにちは"
      (catName Category.branding) (keywordsFor Category.branding) = 5 := by
  refine ⟨calculate_score_zero_counts, calculate_score_of_counts, pyRound_nearest, ?_, ?_⟩
  · have h := calculate_score_of_counts "洗練されたプロフェッショナルな印象"
      (catName Category.branding) (keywordsFor Category.branding) 2 0 0 0
      rfl rfl rfl rfl (by norm_num)
    rw [h]
    norm_num [pyRound]
  · exact calculate_score_zero_counts "こんにちは"
      (catName Category.branding) (keywordsFor Category.branding) rfl rfl rfl rfl

/-- C4 witness. -/
theorem keyword_category_score_weighted_average_witness :
    calculateDetailedCategoryScore "こんにちは"
      (catName Category.branding) (keywordsFor Category.branding) = 5 :=
  keyword_category_score_weighted_average.1 "こんにちは"
    (catName Category.branding) (keywordsFor Category.branding) rfl rfl rfl rfl

/-- The recovered cases of `_parse_salon_response`: when the response
has no fenced JSON block, the block fails JSON decoding, or a field
conversion raises one of the caught `ValueError`/`KeyError`, parsing
returns — without raising — the fixed placeholder `SalonScore`: the
literal "analysis pending" name, all four sub-scores 3, total 3.0,
single-item strengths/weaknesses/improvements and empty detail lists.
(These are the only recovered cases: see the C2 theorem for the
uncaught ones.) -/
theorem parse_unparsable_response_placeholder (text url : String)
    (h : extractJsonBlock text = none ∨
      (∃ b, extractJsonBlock text = some b ∧ jsonParse b = none) ∨
      (∃ b d e, extractJsonBlock text = some b ∧ jsonParse b = some d ∧
        salonFromData d text url = Except.error e ∧ caughtByParse e = true)) :
    parseSalonResponse text url = Except.ok (placeholderScore text url) ∧
    (placeholderScore text url).name = Json.str "解析中のサロン" ∧
    (placeholderScore text url).pv_score = 3 ∧
    (placeholderScore text url).cv_score = 3 ∧
    (placeholderScore text url).price_score = 3 ∧
    (placeholderScore text url).diff_score = 3 ∧
    (placeholderScore text url).total_score = 3 ∧
    (placeholderScore text url).strengths = Json.arr [Json.str "解析結果を取得中"] ∧
    (placeholderScore text url).weaknesses = Json.arr [Json.str "解析結果を取得中"] ∧
    (placeholderScore text url).improvements = Json.arr [Json.str "解析結果を取得中"] ∧
    (placeholderScore text url).pv_details = Json.arr [] ∧
    (placeholderScore text url).cv_details = Json.arr [] ∧
    (placeholderScore text url).price_details = Json.arr [] ∧
    (placeholderScore text url).diff_details = Json.arr [] := by
  refine ⟨?_, rfl, rfl, rfl, rfl, rfl, rfl, rfl, rfl, rfl, rfl, rfl, rfl, rfl⟩
  unfold parseSalonResponse
  rcases h with h | ⟨b, hb, hj⟩ | ⟨b, d, e, hb, hj, hs, hc⟩
  · rw [h]
  · simp [hb, hj]
  · simp [hb, hj, hs, hc]

/-- Concrete instance of the placeholder behaviour on a blockless
response. -/
theorem parse_unparsable_response_placeholder_witness :
    parseSalonResponse "plain text answer" "http://example" =
      Except.ok (placeholderScore "plain text answer" "http://example") ∧
    (placeholderScore "plain text answer" "http://example").name = Json.str "解析中のサロン" ∧
    (placeholderScore "plain text answer" "http://example").pv_score = 3 ∧
    (placeholderScore "plain text answer" "http://example").cv_score = 3 ∧
    (placeholderScore "plain text answer" "http://example").price_score = 3 ∧
    (placeholderScore "plain text answer" "http://example").diff_score = 3 ∧
    (placeholderScore "plain text answer" "http://example").total_score = 3 ∧
    (placeholderScore "plain text answer" "http://example").strengths
      = Json.arr [Json.str "解析結果を取得中"] ∧
    (placeholderScore "plain text answer" "http://example").weaknesses
      = Json.arr [Json.str "解析結果を取得中"] ∧
    (placeholderScore "plain text answer" "http://example").improvements
      = Json.arr [Json.str "解析結果を取得中"] ∧
    (placeholderScore "plain text answer" "http://example").pv_details = Json.arr [] ∧
    (placeholderScore "plain text answer" "http://example").cv_details = Json.arr [] ∧
    (placeholderScore "plain text answer" "http://example").price_details = Json.arr [] ∧
    (placeholderScore "plain text answer" "http://example").diff_details = Json.arr [] :=
  parse_unparsable_response_placeholder "plain text answer" "http://example" (Or.inl rfl)

/-- C2 (code bug): the claim — and the specification's categorical
"a corrupted or absent AI response must never abort the overall
comparison" — is the intent, and the code's `except
(json.JSONDecodeError, KeyError, ValueError)` clause (analyzer.py:215)
is incomplete: a fenced block that decodes to a non-object raises an
uncaught `AttributeError` at `data.get`, and a field value of an
inconvertible type (e.g. a list sub-score) raises an uncaught
`TypeError` inside `int(...)`; both propagate out of
`_parse_salon_response` instead of yielding the placeholder. -/
theorem parse_nonobject_block_raises :
    parseSalonResponse "```json\n[1, 2]\n```" "http://u"
      = Except.error PyErr.attributeError ∧
    parseSalonResponse "```json\n\x7b\"pv_score\": [1]\x7d\n```" "http://u"
      = Except.error PyErr.typeError ∧
    (∀ text url : String,
      Except.error PyErr.attributeError ≠ Except.ok (placeholderScore text url)) :=
  ⟨rfl, rfl, fun _ _ h => Except.noConfusion h⟩

lemma salonFromData_ok_fields {fs : List (String × Json)} {t u : String} {s : SalonScore}
    (hok : salonFromData (Json.obj fs) t u = Except.ok s) :
    s.name = pyOr (jget fs "name") (Json.str "不明") ∧
    s.url = u ∧
    pyIntOf (pyOr (jget fs "pv_score") (Json.int 3)) = Except.ok s.pv_score ∧
    pyIntOf (pyOr (jget fs "cv_score") (Json.int 3)) = Except.ok s.cv_score ∧
    pyIntOf (pyOr (jget fs "price_score") (Json.int 3)) = Except.ok s.price_score ∧
    pyIntOf (pyOr (jget fs "diff_score") (Json.int 3)) = Except.ok s.diff_score ∧
    pyFloatOf (pyOr (jget fs "total_score") (Json.float 3)) = Except.ok s.total_score ∧
    s.strengths = pyOr (jget fs "strengths") (Json.arr []) ∧
    s.weaknesses = pyOr (jget fs "weaknesses") (Json.arr []) ∧
    s.improvements = pyOr (jget fs "improvements") (Json.arr []) ∧
    s.raw_analysis = t ∧
    s.pv_details = pyOr (jget fs "pv_details") (Json.arr []) ∧
    s.cv_details = pyOr (jget fs "cv_details") (Json.arr []) ∧
    s.price_details = pyOr (jget fs "price_details") (Json.arr []) ∧
    s.diff_details = pyOr (jget fs "diff_details") (Json.arr []) ∧
    s.gender_ratio = jget fs "gender_ratio" ∧
    s.age_ratio = jget fs "age_ratio" := by
  simp only [salonFromData] at hok
  cases hpv : pyIntOf (pyOr (jget fs "pv_score") (Json.int 3)) with
  | error e => simp [hpv] at hok
  | ok pv =>
  simp only [hpv] at hok
  cases hcv : pyIntOf (pyOr (jget fs "cv_score") (Json.int 3)) with
  | error e => simp [hcv] at hok
  | ok cv =>
  simp only [hcv] at hok
  cases hprice : pyIntOf (pyOr (jget fs "price_score") (Json.int 3)) with
  | error e => simp [hprice] at hok
  | ok price =>
  simp only [hprice] at hok
  cases hdiff : pyIntOf (pyOr (jget fs "diff_score") (Json.int 3)) with
  | error e => simp [hdiff] at hok
  | ok diff =>
  simp only [hdiff] at hok
  cases htot : pyFloatOf (pyOr (jget fs "total_score") (Json.float 3)) with
  | error e => simp [htot] at hok
  | ok total =>
  simp only [htot] at hok
  simp only [Except.ok.injEq] at hok
  subst hok
  exact ⟨rfl, rfl, rfl, rfl, rfl, rfl, rfl, rfl, rfl, rfl, rfl, rfl, rfl, rfl, rfl,
    rfl, rfl⟩

/-- C10: in the field mapping of single-listing response parsing, a
present-but-falsy JSON value is indistinguishable from an absent key —
a sub-score `0` or `null` becomes 3, a total `0`/`0.0`/`null` becomes
3.0, an empty or `null` name becomes the "unknown" fallback, and a
`null` list becomes the empty list — so an AI-emitted sub-score of 0
never survives into the `SalonScore`. -/
theorem falsy_fields_default (fs : List (String × Json)) (text url : String)
    (s : SalonScore) (hok : salonFromData (Json.obj fs) text url = Except.ok s) :
    ((jget fs "pv_score" = Json.int 0 ∨ jget fs "pv_score" = Json.null) → s.pv_score = 3) ∧
    ((jget fs "cv_score" = Json.int 0 ∨ jget fs "cv_score" = Json.null) → s.cv_score = 3) ∧
    ((jget fs "price_score" = Json.int 0 ∨ jget fs "price_score" = Json.null) →
      s.price_score = 3) ∧
    ((jget fs "diff_score" = Json.int 0 ∨ jget fs "diff_score" = Json.null) →
      s.diff_score = 3) ∧
    ((jget fs "total_score" = Json.int 0 ∨ jget fs "total_score" = Json.float 0 ∨
        jget fs "total_score" = Json.null) → s.total_score = 3) ∧
    ((jget fs "name" = Json.str "" ∨ jget fs "name" = Json.null) →
      s.name = Json.str "不明") ∧
    (jget fs "strengths" = Json.null → s.strengths = Json.arr []) ∧
    (jget fs "weaknesses" = Json.null → s.weaknesses = Json.arr []) ∧
    (jget fs "improvements" = Json.null → s.improvements = Json.arr []) ∧
    (jget fs "pv_details" = Json.null → s.pv_details = Json.arr []) := by
  obtain ⟨hname, -, hpv, hcv, hprice, hdiff, htot, hstr, hwk, himp, -, hpvd, -, -, -, -, -⟩ :=
    salonFromData_ok_fields hok
  refine ⟨?_, ?_, ?_, ?_, ?_, ?_, ?_, ?_, ?_, ?_⟩
  · rintro (h | h) <;> rw [h] at hpv <;>
      simpa [pyOr, pyTruthy, pyIntOf, eq_comm] using hpv
  · rintro (h | h) <;> rw [h] at hcv <;>
      simpa [pyOr, pyTruthy, pyIntOf, eq_comm] using hcv
  · rintro (h | h) <;> rw [h] at hprice <;>
      simpa [pyOr, pyTruthy, pyIntOf, eq_comm] using hprice
  · rintro (h | h) <;> rw [h] at hdiff <;>
      simpa [pyOr, pyTruthy, pyIntOf, eq_comm] using hdiff
  · rintro (h | h | h) <;> rw [h] at htot <;>
      simpa [pyOr, pyTruthy, pyFloatOf, eq_comm] using htot
  · rintro (h | h) <;> rw [h] at hname <;> simp [pyOr, pyTruthy, hname]
  · intro h; rw [h] at hstr; simpa [pyOr, pyTruthy] using hstr
  · intro h; rw [h] at hwk; simpa [pyOr, pyTruthy] using hwk
  · intro h; rw [h] at himp; simpa [pyOr, pyTruthy] using himp
  · intro h; rw [h] at hpvd; simpa [pyOr, pyTruthy] using hpvd

/-- C10 witness: a document carrying `pv_score: 0`, `total_score: 0`,
an empty name and a `null` strengths list parses to the defaulted
values. -/
theorem falsy_fields_default_witness :
    ((jget [("pv_score", Json.int 0), ("total_score", Json.int 0),
        ("name", Json.str ""), ("strengths", Json.null)] "pv_score" = Json.int 0 ∨
      jget [("pv_score", Json.int 0), ("total_score", Json.int 0),
        ("name", Json.str ""), ("strengths", Json.null)] "pv_score" = Json.null) →
      (SalonScore.mk (Json.str "不明") "u" 3 3 3 3 3 (Json.arr []) (Json.arr [])
        (Json.arr []) "t" (Json.arr []) (Json.arr []) (Json.arr []) (Json.arr [])
        Json.null Json.null).pv_score = 3) ∧
    ((jget [("pv_score", Json.int 0), ("total_score", Json.int 0),
        ("name", Json.str ""), ("strengths", Json.null)] "cv_score" = Json.int 0 ∨
      jget [("pv_score", Json.int 0), ("total_score", Json.int 0),
        ("name", Json.str ""), ("strengths", Json.null)] "cv_score" = Json.null) →
      (SalonScore.mk (Json.str "不明") "u" 3 3 3 3 3 (Json.arr []) (Json.arr [])
        (Json.arr []) "t" (Json.arr []) (Json.arr []) (Json.arr []) (Json.arr [])
        Json.null Json.null).cv_score = 3) ∧
    ((jget [("pv_score", Json.int 0), ("total_score", Json.int 0),
        ("name", Json.str ""), ("strengths", Json.null)] "price_score" = Json.int 0 ∨
      jget [("pv_score", Json.int 0), ("total_score", Json.int 0),
        ("name", Json.str ""), ("strengths", Json.null)] "price_score" = Json.null) →
      (SalonScore.mk (Json.str "不明") "u" 3 3 3 3 3 (Json.arr []) (Json.arr [])
        (Json.arr []) "t" (Json.arr []) (Json.arr []) (Json.arr []) (Json.arr [])
        Json.null Json.null).price_score = 3) ∧
    ((jget [("pv_score", Json.int 0), ("total_score", Json.int 0),
        ("name", Json.str ""), ("strengths", Json.null)] "diff_score" = Json.int 0 ∨
      jget [("pv_score", Json.int 0), ("total_score", Json.int 0),
        ("name", Json.str ""), ("strengths", Json.null)] "diff_score" = Json.null) →
      (SalonScore.mk (Json.str "不明") "u" 3 3 3 3 3 (Json.arr []) (Json.arr [])
        (Json.arr []) "t" (Json.arr []) (Json.arr []) (Json.arr []) (Json.arr [])
        Json.null Json.null).diff_score = 3) ∧
    ((jget [("pv_score", Json.int 0), ("total_score", Json.int 0),
        ("name", Json.str ""), ("strengths", Json.null)] "total_score" = Json.int 0 ∨
      jget [("pv_score", Json.int 0), ("total_score", Json.int 0),
        ("name", Json.str ""), ("strengths", Json.null)] "total_score" = Json.float 0 ∨
      jget [("pv_score", Json.int 0), ("total_score", Json.int 0),
        ("name", Json.str ""), ("strengths", Json.null)] "total_score" = Json.null) →
      (SalonScore.mk (Json.str "不明") "u" 3 3 3 3 3 (Json.arr []) (Json.arr [])
        (Json.arr []) "t" (Json.arr []) (Json.arr []) (Json.arr []) (Json.arr [])
        Json.null Json.null).total_score = 3) ∧
    ((jget [("pv_score", Json.int 0), ("total_score", Json.int 0),
        ("name", Json.str ""), ("strengths", Json.null)] "name" = Json.str "" ∨
      jget [("pv_score", Json.int 0), ("total_score", Json.int 0),
        ("name", Json.str ""), ("strengths", Json.null)] "name" = Json.null) →
      (SalonScore.mk (Json.str "不明") "u" 3 3 3 3 3 (Json.arr []) (Json.arr [])
        (Json.arr []) "t" (Json.arr []) (Json.arr []) (Json.arr []) (Json.arr [])
        Json.null Json.null).name = Json.str "不明") ∧
    (jget [("pv_score", Json.int 0), ("total_score", Json.int 0),
        ("name", Json.str ""), ("strengths", Json.null)] "strengths" = Json.null →
      (SalonScore.mk (Json.str "不明") "u" 3 3 3 3 3 (Json.arr []) (Json.arr [])
        (Json.arr []) "t" (Json.arr []) (Json.arr []) (Json.arr []) (Json.arr [])
        Json.null Json.null).strengths = Json.arr []) ∧
    (jget [("pv_score", Json.int 0), ("total_score", Json.int 0),
        ("name", Json.str ""), ("strengths", Json.null)] "weaknesses" = Json.null →
      (SalonScore.mk (Json.str "不明") "u" 3 3 3 3 3 (Json.arr []) (Json.arr [])
        (Json.arr []) "t" (Json.arr []) (Json.arr []) (Json.arr []) (Json.arr [])
        Json.null Json.null).weaknesses = Json.arr []) ∧
    (jget [("pv_score", Json.int 0), ("total_score", Json.int 0),
        ("name", Json.str ""), ("strengths", Json.null)] "improvements" = Json.null →
      (SalonScore.mk (Json.str "不明") "u" 3 3 3 3 3 (Json.arr []) (Json.arr [])
        (Json.arr []) "t" (Json.arr []) (Json.arr []) (Json.arr []) (Json.arr [])
        Json.null Json.null).improvements = Json.arr []) ∧
    (jget [("pv_score", Json.int 0), ("total_score", Json.int 0),
        ("name", Json.str ""), ("strengths", Json.null)] "pv_details" = Json.null →
      (SalonScore.mk (Json.str "不明") "u" 3 3 3 3 3 (Json.arr []) (Json.arr [])
        (Json.arr []) "t" (Json.arr []) (Json.arr []) (Json.arr []) (Json.arr [])
        Json.null Json.null).pv_details = Json.arr []) :=
  falsy_fields_default
    [("pv_score", Json.int 0), ("total_score", Json.int 0),
      ("name", Json.str ""), ("strengths", Json.null)] "t" "u"
    (SalonScore.mk (Json.str "不明") "u" 3 3 3 3 3 (Json.arr []) (Json.arr [])
      (Json.arr []) "t" (Json.arr []) (Json.arr []) (Json.arr []) (Json.arr [])
      Json.null Json.null) rfl

/-- C3: a response carrying a well-formed fenced JSON scoring block
(non-empty name string, integer sub-scores in `[1,5]`, numeric total in
`[1.0,5.0]`, list-valued list fields) parses to a `SalonScore` whose
fields equal the JSON values verbatim, with the strengths/weaknesses/
improvements and four detail lists defaulting to the empty list when
absent (`listOrEmpty`), the `url` field equal to the supplied URL, and
the ratio maps passed through unchanged. -/
theorem parse_wellformed_response_roundtrip
    (text url b : String) (fs : List (String × Json)) (nm : String)
    (pv cv price diff : Int) (tq : ℚ)
    (hb : extractJsonBlock text = some b)
    (hj : jsonParse b = some (Json.obj fs))
    (hnm : jget fs "name" = Json.str nm) (hnm0 : nm ≠ "")
    (hpv : jget fs "pv_score" = Json.int pv) (hpv15 : 1 ≤ pv ∧ pv ≤ 5)
    (hcv : jget fs "cv_score" = Json.int cv) (hcv15 : 1 ≤ cv ∧ cv ≤ 5)
    (hprice : jget fs "price_score" = Json.int price) (hprice15 : 1 ≤ price ∧ price ≤ 5)
    (hdiff : jget fs "diff_score" = Json.int diff) (hdiff15 : 1 ≤ diff ∧ diff ≤ 5)
    (htot : jget fs "total_score" = Json.float tq ∨
      (∃ n : Int, jget fs "total_score" = Json.int n ∧ (n : ℚ) = tq))
    (htot15 : 1 ≤ tq ∧ tq ≤ 5)
    (hlists : ∀ k ∈ ["strengths", "weaknesses", "improvements", "pv_details",
        "cv_details", "price_details", "diff_details"],
      jget fs k = Json.null ∨ ∃ xs, jget fs k = Json.arr xs) :
    parseSalonResponse text url = Except.ok
      { name := Json.str nm
        url := url
        pv_score := pv
        cv_score := cv
        price_score := price
        diff_score := diff
        total_score := tq
        strengths := listOrEmpty (jget fs "strengths")
        weaknesses := listOrEmpty (jget fs "weaknesses")
        improvements := listOrEmpty (jget fs "improvements")
        raw_analysis := text
        pv_details := listOrEmpty (jget fs "pv_details")
        cv_details := listOrEmpty (jget fs "cv_details")
        price_details := listOrEmpty (jget fs "price_details")
        diff_details := listOrEmpty (jget fs "diff_details")
        gender_ratio := jget fs "gender_ratio"
        age_ratio := jget fs "age_ratio" } := by
  have score_eq : ∀ (k : String) (v : Int), jget fs k = Json.int v → 1 ≤ v ∧ v ≤ 5 →
      pyIntOf (pyOr (jget fs k) (Json.int 3)) = Except.ok v := by
    intro k v hk hv
    have hv0 : ¬ v = 0 := by omega
    rw [hk]
    simp [pyOr, pyTruthy, pyIntOf, hv0]
  have e1 := score_eq "pv_score" pv hpv hpv15
  have e2 := score_eq "cv_score" cv hcv hcv15
  have e3 := score_eq "price_score" price hprice hprice15
  have e4 := score_eq "diff_score" diff hdiff hdiff15
  have e5 : pyFloatOf (pyOr (jget fs "total_score") (Json.float 3)) = Except.ok tq := by
    have htq0 : ¬ tq = 0 := by
      intro hz
      rw [hz] at htot15
      exact absurd htot15.1 (by norm_num)
    rcases htot with ht | ⟨n, ht, hn⟩
    · rw [ht]
      simp [pyOr, pyTruthy, pyFloatOf, htq0]
    · have hn0 : ¬ n = 0 := by
        intro hz
        rw [hz] at hn
        exact htq0 (by exact_mod_cast hn.symm)
      rw [ht]
      simp [pyOr, pyTruthy, pyFloatOf, hn0, hn]
  have ename : pyOr (jget fs "name") (Json.str "不明") = Json.str nm := by
    rw [hnm]
    simp [pyOr, pyTruthy, hnm0]
  have elist : ∀ k ∈ ["strengths", "weaknesses", "improvements", "pv_details",
      "cv_details", "price_details", "diff_details"],
      pyOr (jget fs k) (Json.arr []) = listOrEmpty (jget fs k) := by
    intro k hk
    rcases hlists k hk with h | ⟨xs, h⟩
    · rw [h]; rfl
    · rw [h]
      cases xs with
      | nil => rfl
      | cons x rest => rfl
  unfold parseSalonResponse
  simp only [hb, hj, salonFromData, e1, e2, e3, e4, e5]
  rw [ename,
    elist "strengths" (by simp), elist "weaknesses" (by simp),
    elist "improvements" (by simp), elist "pv_details" (by simp),
    elist "cv_details" (by simp), elist "price_details" (by simp),
    elist "diff_details" (by simp)]

set_option maxRecDepth 16384 in
/-- C3 witness: a concrete well-formed response round-trips verbatim
(absent list fields becoming `[]`, the integer total carried over, the
ratio map passed through). -/
theorem parse_wellformed_response_roundtrip_witness :
    parseSalonResponse
      "x ```json\n\x7b\"name\": \"Salon A\", \"pv_score\": 4, \"cv_score\": 2, \"price_score\": 5, \"diff_score\": 1, \"total_score\": 3, \"strengths\": [\"s1\"], \"pv_details\": [\"1-1\"], \"gender_ratio\": \x7b\"female\": 70\x7d\x7d\n``` y"
      "http://u" = Except.ok
      { name := Json.str "Salon A"
        url := "http://u"
        pv_score := 4
        cv_score := 2
        price_score := 5
        diff_score := 1
        total_score := ((3 : Int) : ℚ)
        strengths := Json.arr [Json.str "s1"]
        weaknesses := Json.arr []
        improvements := Json.arr []
        raw_analysis := "x ```json\n\x7b\"name\": \"Salon A\", \"pv_score\": 4, \"cv_score\": 2, \"price_score\": 5, \"diff_score\": 1, \"total_score\": 3, \"strengths\": [\"s1\"], \"pv_details\": [\"1-1\"], \"gender_ratio\": \x7b\"female\": 70\x7d\x7d\n``` y"
        pv_details := Json.arr [Json.str "1-1"]
        cv_details := Json.arr []
        price_details := Json.arr []
        diff_details := Json.arr []
        gender_ratio := Json.obj [("female", Json.int 70)]
        age_ratio := Json.null } := by
  exact parse_wellformed_response_roundtrip
    "x ```json\n\x7b\"name\": \"Salon A\", \"pv_score\": 4, \"cv_score\": 2, \"price_score\": 5, \"diff_score\": 1, \"total_score\": 3, \"strengths\": [\"s1\"], \"pv_details\": [\"1-1\"], \"gender_ratio\": \x7b\"female\": 70\x7d\x7d\n``` y"
    "http://u"
    "\x7b\"name\": \"Salon A\", \"pv_score\": 4, \"cv_score\": 2, \"price_score\": 5, \"diff_score\": 1, \"total_score\": 3, \"strengths\": [\"s1\"], \"pv_details\": [\"1-1\"], \"gender_ratio\": \x7b\"female\": 70\x7d\x7d"
    [("name", Json.str "Salon A"), ("pv_score", Json.int 4), ("cv_score", Json.int 2),
      ("price_score", Json.int 5), ("diff_score", Json.int 1), ("total_score", Json.int 3),
      ("strengths", Json.arr [Json.str "s1"]), ("pv_details", Json.arr [Json.str "1-1"]),
      ("gender_ratio", Json.obj [("female", Json.int 70)])]
    "Salon A" 4 2 5 1 ((3 : Int) : ℚ)
    rfl rfl rfl (by decide) rfl (by decide) rfl (by decide) rfl (by decide) rfl (by decide)
    (Or.inr ⟨3, rfl, rfl⟩) (by norm_num)
    (by
      intro k hk
      fin_cases hk
      · exact Or.inr ⟨[Json.str "s1"], rfl⟩
      · exact Or.inl rfl
      · exact Or.inl rfl
      · exact Or.inr ⟨[Json.str "1-1"], rfl⟩
      · exact Or.inl rfl
      · exact Or.inl rfl
      · exact Or.inl rfl)

/-- C7 witness. -/
theorem star_rendering_five_glyphs_witness :
    (scoreStars 3).data
      = List.replicate (3 : Int).toNat '★' ++ List.replicate ((5 : Int) - 3).toNat '☆' ∧
    (scoreStars 3).data.length = 5 ∧
    summaryCardStars 3 = scoreStars 3 ∧
    reportStars 3 = scoreStars 3 ∧
    scoreStars 0 = "☆☆☆☆☆" ∧ scoreStars 5 = "★★★★★" :=
  star_rendering_five_glyphs 3 (by decide) (by decide)

lemma takeWhile_all {p : Char → Bool} :
    ∀ l : List Char, (∀ c ∈ l, p c = true) → l.takeWhile p = l := by
  intro l h
  induction l with
  | nil => rfl
  | cons c rest ih =>
    rw [List.takeWhile_cons, h c (List.mem_cons_self c rest)]
    simp [ih (fun x hx => h x (List.mem_cons_of_mem _ hx))]

lemma isPrefixOfChars_mem :
    ∀ {pat l : List Char}, isPrefixOfChars pat l = true → ∀ c ∈ pat, c ∈ l := by
  intro pat
  induction pat with
  | nil => intro l _ c hc; cases hc
  | cons a as ih =>
    intro l h c hc
    cases l with
    | nil => simp [isPrefixOfChars] at h
    | cons b bs =>
      simp only [isPrefixOfChars, Bool.and_eq_true, beq_iff_eq] at h
      rcases List.mem_cons.mp hc with hca | hcas
      · exact hca ▸ h.1 ▸ List.mem_cons_self b bs
      · exact List.mem_cons_of_mem b (ih h.2 c hcas)

lemma searchPrefixId_idChars_none (l : List Char)
    (hall : ∀ c ∈ l, isIdChar c = true) :
    searchPrefixId "youtu.be/".data l = none := by
  induction l with
  | nil => rfl
  | cons c rest ih =>
    have hp : isPrefixOfChars "youtu.be/".data (c :: rest) = false := by
      rw [Bool.eq_false_iff]
      intro h
      have hmem : '.' ∈ c :: rest := isPrefixOfChars_mem h '.' (by decide)
      have := hall '.' hmem
      simp [isIdChar] at this
    simp only [searchPrefixId, hp, Bool.false_eq_true, if_false]
    exact ih (fun x hx => hall x (List.mem_cons_of_mem _ hx))

/-- C9: the embeddable-id extractor returns the same id for the
short-link form `youtu.be/<id>` and the canonical watch-page form
`youtube.com/watch?v=<id>` for any non-empty id over `[A-Za-z0-9_-]`,
and returns `none` for every URL matched by neither pattern search. -/
theorem youtube_id_extraction (vid : String) (hne : vid.data ≠ [])
    (hall : ∀ c ∈ vid.data, isIdChar c = true) :
    (extractYoutubeId ("youtu.be/" ++ vid) = some vid ∧
     extractYoutubeId ("youtube.com/watch?v=" ++ vid) = some vid) ∧
    (∀ url : String,
      searchPrefixId "youtu.be/".data url.data = none →
      searchPrefixId "youtube.com/watch?v=".data url.data = none →
      extractYoutubeId url = none) ∧
    extractYoutubeId "https://example.com/abc" = none := by
  obtain ⟨l⟩ := vid
  have htw : l.takeWhile isIdChar = l := takeWhile_all l hall
  have hle : l.isEmpty = false := by
    cases l with
    | nil => exact absurd rfl hne
    | cons c rest => rfl
  refine ⟨⟨?_, ?_⟩, ?_, rfl⟩
  · show (match searchPrefixId "youtu.be/".data ("youtu.be/".data ++ l) with
      | some v => some v
      | none => searchPrefixId "youtube.com/watch?v=".data ("youtu.be/".data ++ l))
      = some (String.mk l)
    have step : searchPrefixId "youtu.be/".data ("youtu.be/".data ++ l)
        = if (l.takeWhile isIdChar).isEmpty then
            searchPrefixId "youtu.be/".data ("outu.be/".data ++ l)
          else some (String.mk (l.takeWhile isIdChar)) := rfl
    rw [step, htw, hle]
    simp
  · show (match searchPrefixId "youtu.be/".data ("youtube.com/watch?v=".data ++ l) with
      | some v => some v
      | none => searchPrefixId "youtube.com/watch?v=".data ("youtube.com/watch?v=".data ++ l))
      = some (String.mk l)
    have hnone : searchPrefixId "youtu.be/".data ("youtube.com/watch?v=".data ++ l)
        = searchPrefixId "youtu.be/".data l := rfl
    rw [hnone, searchPrefixId_idChars_none l hall]
    have step : searchPrefixId "youtube.com/watch?v=".data ("youtube.com/watch?v=".data ++ l)
        = if (l.takeWhile isIdChar).isEmpty then
            searchPrefixId "youtube.com/watch?v=".data ("outube.com/watch?v=".data ++ l)
          else some (String.mk (l.takeWhile isIdChar)) := rfl
    rw [step, htw, hle]
    simp
  · intro url h1 h2
    unfold extractYoutubeId
    rw [h1, h2]

/-- C9 witness. -/
theorem youtube_id_extraction_witness :
    (extractYoutubeId ("youtu.be/" ++ "dQw4w9WgXcQ") = some "dQw4w9WgXcQ" ∧
     extractYoutubeId ("youtube.com/watch?v=" ++ "dQw4w9WgXcQ") = some "dQw4w9WgXcQ") ∧
    (∀ url : String,
      searchPrefixId "youtu.be/".data url.data = none →
      searchPrefixId "youtube.com/watch?v=".data url.data = none →
      extractYoutubeId url = none) ∧
    extractYoutubeId "https://example.com/abc" = none :=
  youtube_id_extraction "dQw4w9WgXcQ" (by decide) (by decide)

/-- C6: in the analysis pipeline the own salon is analyzed first (head
of the call sequence), the `competitors` field lists one record per
submitted competitor URL in submission order (0, 1 or 2 records from
the two inputs), and blank or whitespace-only competitor inputs are
skipped — producing no record and no AI call. -/
theorem compare_pipeline_order_and_blank_skip
    (respond : String → Bool → String) (summary myUrl c1 c2 w : String)
    (my s1 s2 : SalonScore)
    (hmy : analyzeSalon respond myUrl true = Except.ok my)
    (h1 : analyzeSalon respond c1 false = Except.ok s1)
    (h2 : analyzeSalon respond c2 false = Except.ok s2)
    (hv1 : stripChars c1.data ≠ [])
    (hv2 : stripChars c2.data ≠ [])
    (hw : stripChars w.data = []) :
    runAnalysis respond summary myUrl [c1, c2]
      = Except.ok ⟨my, [s1, s2], summary, extractRecommendations summary⟩ ∧
    runAnalysis respond summary myUrl [w, c2]
      = Except.ok ⟨my, [s2], summary, extractRecommendations summary⟩ ∧
    runAnalysis respond summary myUrl [w, w]
      = Except.ok ⟨my, [], summary, extractRecommendations summary⟩ ∧
    runAnalysisCalls myUrl [c1, c2] = [(myUrl, true), (c1, false), (c2, false)] ∧
    runAnalysisCalls myUrl [w, c2] = [(myUrl, true), (c2, false)] ∧
    runAnalysisCalls myUrl [w, w] = [(myUrl, true)] := by
  have hc1ne : ¬ c1 = "" := by
    intro h
    rw [h] at hv1
    exact hv1 rfl
  have hc2ne : ¬ c2 = "" := by
    intro h
    rw [h] at hv2
    exact hv2 rfl
  have he1 : (stripChars c1.data).isEmpty = false := by
    cases hsc : stripChars c1.data with
    | nil => exact absurd hsc hv1
    | cons a as => rfl
  have he2 : (stripChars c2.data).isEmpty = false := by
    cases hsc : stripChars c2.data with
    | nil => exact absurd hsc hv2
    | cons a as => rfl
  have hew : (stripChars w.data).isEmpty = true := by rw [hw]; rfl
  have hq1 : (c1 == "") = false := beq_eq_false_iff_ne.mpr hc1ne
  have hq2 : (c2 == "") = false := beq_eq_false_iff_ne.mpr hc2ne
  have hvc12 : validCompetitors [c1, c2] = [c1, c2] := by
    simp [validCompetitors, List.filter, hq1, hq2, he1, he2]
  have hvcw2 : validCompetitors [w, c2] = [c2] := by
    simp [validCompetitors, List.filter, hq2, he2, hew]
  have hvcww : validCompetitors [w, w] = [] := by
    simp [validCompetitors, List.filter, hew]
  refine ⟨?_, ?_, ?_, ?_, ?_, ?_⟩
  · rw [runAnalysis, hvc12]
    simp only [compareSalons, hmy, analyzeCompetitors, if_neg hc1ne, if_neg hc2ne, h1, h2]
  · rw [runAnalysis, hvcw2]
    simp only [compareSalons, hmy, analyzeCompetitors, if_neg hc2ne, h2]
  · rw [runAnalysis, hvcww]
    simp only [compareSalons, hmy, analyzeCompetitors]
  · rw [runAnalysisCalls, hvc12]
    simp [compareSalonsCalls, List.filter, hc1ne, hc2ne]
  · rw [runAnalysisCalls, hvcw2]
    simp [compareSalonsCalls, List.filter, hc2ne]
  · rw [runAnalysisCalls, hvcww]
    simp [compareSalonsCalls]

/-- C6 witness. -/
theorem compare_pipeline_order_and_blank_skip_witness :
    runAnalysis (fun _ _ => "") "1. r" "m" ["a", "b"]
      = Except.ok ⟨placeholderScore "" "m", [placeholderScore "" "a", placeholderScore "" "b"],
          "1. r", extractRecommendations "1. r"⟩ ∧
    runAnalysis (fun _ _ => "") "1. r" "m" [" ", "b"]
      = Except.ok ⟨placeholderScore "" "m", [placeholderScore "" "b"],
          "1. r", extractRecommendations "1. r"⟩ ∧
    runAnalysis (fun _ _ => "") "1. r" "m" [" ", " "]
      = Except.ok ⟨placeholderScore "" "m", [], "1. r", extractRecommendations "1. r"⟩ ∧
    runAnalysisCalls "m" ["a", "b"] = [("m", true), ("a", false), ("b", false)] ∧
    runAnalysisCalls "m" [" ", "b"] = [("m", true), ("b", false)] ∧
    runAnalysisCalls "m" [" ", " "] = [("m", true)] :=
  compare_pipeline_order_and_blank_skip (fun _ _ => "") "1. r" "m" "a" "b" " "
    (placeholderScore "" "m") (placeholderScore "" "a") (placeholderScore "" "b")
    rfl rfl rfl (by decide) (by decide) (by decide)

end HPB
